import Mathlib

/-!
# Verification of the firesim forest-fire cellular automaton

Shallow embedding of the rule kernel (`src/sim/mod.rs`), the stepping
engine's buffer parity logic (`src/sim/gpucompute.rs`, `src/gpu.rs`) and
the two simulation-loop embeddings (`sim_thread` in `src/sim/mod.rs`,
`GpuSimRenderer::step_and_render` in `src/gpu.rs`).

Machine `f32` scalars are modelled as rationals; `u32` counters as `Nat`.
Probabilistic decisions take the pseudo-random samples as explicit
rational arguments (the source draws them with `fastrand::f32()`, which
yields values in `[0, 1)`).
-/

/-- Burn state of a cell: `BurnState` in `src/sim/mod.rs`. -/
inductive BurnState where
  | NotBurning : BurnState
  | Burning (ticks_remaining : ℕ) : BurnState
deriving DecidableEq

/-- `BurnState::burning` in `src/sim/mod.rs`: whether the state is `Burning`. -/
def BurnState.burning : BurnState → Bool
  | BurnState.NotBurning => false
  | BurnState.Burning _ => true

/-- `CellState` in `src/sim/mod.rs`. -/
structure CellState where
  burning : BurnState
  underbrush : ℚ
  tree : Bool
deriving DecidableEq

/-- The all-idle cell used as the out-of-bounds default in the embedding. -/
def defaultCell : CellState :=
  { burning := BurnState.NotBurning, underbrush := 0, tree := false }

/-- `SimulationParameters` in `src/sim/mod.rs`: the per-tick derived
parameters sent to the kernel. -/
structure SimulationParameters where
  tree_growth_rate : ℚ
  underbrush_tree_growth_hindrance : ℚ
  tree_underbrush_generation : ℚ
  tree_death_underbrush : ℚ
  tree_death_rate : ℚ
  tree_fire_duration : ℕ
  underbrush_fire_duration : ℕ
  fire_spread_rate : ℚ
  tree_flammability : ℚ
  underbrush_flammability : ℚ
  lightning_frequency : ℚ
  tick_rate : ℕ
deriving DecidableEq

/-- An all-zero parameter record, used as a base for concrete instances. -/
def zeroParams : SimulationParameters :=
  { tree_growth_rate := 0
    underbrush_tree_growth_hindrance := 0
    tree_underbrush_generation := 0
    tree_death_underbrush := 0
    tree_death_rate := 0
    tree_fire_duration := 0
    underbrush_fire_duration := 0
    fire_spread_rate := 0
    tree_flammability := 0
    underbrush_flammability := 0
    lightning_frequency := 0
    tick_rate := 0 }

/-- `NeighboringCellInfo` in `src/sim/mod.rs`. -/
structure NeighboringCellInfo where
  trees : ℕ
  fires : ℕ
deriving DecidableEq

/-- `handle_burn` in `src/sim/mod.rs` (lines 379-397): for a burning cell,
decrement a positive `ticks_remaining`; if what remains exceeds 1 the cell
stays burning, otherwise it becomes idle, loses its tree, and its
underbrush is reset to 0. Idle cells are untouched. -/
def handle_burn (cell : CellState) : CellState :=
  match cell.burning with
  | BurnState.NotBurning => cell
  | BurnState.Burning ticks_remaining =>
    let t := if ticks_remaining > 0 then ticks_remaining - 1 else ticks_remaining
    if t > 1 then
      { cell with burning := BurnState.Burning t }
    else
      { burning := BurnState.NotBurning, tree := false, underbrush := 0 }

/-- `calculate_burn_duration` in `src/sim/mod.rs` (lines 399-402):
`(underbrush * underbrush_fire_duration as f32).round() as u32
 + tree as u32 * tree_fire_duration`.
Rust's `round` (half away from zero) agrees with `round` on the
nonnegative values that occur, and the `as u32` cast saturates negative
values to 0, modelled by `Int.toNat`. -/
def calculate_burn_duration (state : CellState) (parameters : SimulationParameters) : ℕ :=
  (round (state.underbrush * (parameters.underbrush_fire_duration : ℚ))).toNat
    + (if state.tree then 1 else 0) * parameters.tree_fire_duration

/-- The local `total_flammability` of `apply_simulation_rules`
(`src/sim/mod.rs` lines 343-347):
`(if tree { tree_flammability } else { 0.0 }) + underbrush * underbrush_flammability`. -/
def total_flammability (state : CellState) (parameters : SimulationParameters) : ℚ :=
  (if state.tree then parameters.tree_flammability else 0)
    + state.underbrush * parameters.underbrush_flammability

/-- The fire-spread ignition probability compared against the random
sample in `apply_simulation_rules` (`src/sim/mod.rs` lines 350-353):
`(fires / 8) * fire_spread_rate * total_flammability`. -/
def spread_probability (state : CellState) (parameters : SimulationParameters)
    (neighboring_cell_info : NeighboringCellInfo) : ℚ :=
  ((neighboring_cell_info.fires : ℚ) / 8) * parameters.fire_spread_rate
    * total_flammability state parameters

/-- The tree-growth probability compared against the random sample in
`apply_simulation_rules` (`src/sim/mod.rs` lines 366-368):
`tree_growth_rate * (1 - underbrush_tree_growth_hindrance * underbrush)`. -/
def growth_probability (state : CellState) (parameters : SimulationParameters) : ℚ :=
  parameters.tree_growth_rate
    * (1 - parameters.underbrush_tree_growth_hindrance * state.underbrush)

/-- `apply_simulation_rules` in `src/sim/mod.rs` (lines 337-377): one tick
of the rule kernel on a single cell. `r1`, `r2` and `r3` are the
pseudo-random samples consumed (in source order) by the fire-spread,
tree-death and tree-growth decisions. -/
def apply_simulation_rules (state0 : CellState) (parameters : SimulationParameters)
    (neighboring_cell_info : NeighboringCellInfo) (r1 r2 r3 : ℚ) : CellState :=
  let state := handle_burn state0
  let already_burning := state.burning.burning
  let burning := already_burning
    || decide (r1 < spread_probability state parameters neighboring_cell_info)
  let new_burn_state :=
    if already_burning || !burning then state.burning
    else BurnState.Burning (calculate_burn_duration state parameters)
  let tree_dies := state.tree && decide (r2 < parameters.tree_death_rate)
  let tree := state.tree
    || (!burning && decide (r3 < growth_probability state parameters))
  let underbrush := state.underbrush
    + parameters.tree_underbrush_generation
      * ((((if tree then 1 else 0) + neighboring_cell_info.trees : ℕ)) : ℚ)
    + parameters.tree_death_underbrush * (if tree_dies then 1 else 0)
  { underbrush := underbrush, tree := tree, burning := new_burn_state }

/-- The eight neighbor offsets `N` in `get_neighboring_cell_info`
(`src/sim/mod.rs` lines 420-429). -/
def neighborOffsets : List (Int × Int) :=
  [(-1, -1), (-1, 0), (-1, 1), (0, -1), (0, 1), (1, -1), (1, 0), (1, 1)]

/-- `get_neighboring_cell_info` in `src/sim/mod.rs` (lines 409-451): counts
burning neighbors and tree neighbors of cell `idx`, skipping out-of-bounds
offsets. -/
def get_neighboring_cell_info (grid : List CellState) (idx width height : ℕ) :
    NeighboringCellInfo :=
  let row := idx / width
  let col := idx % width
  neighborOffsets.foldl
    (fun acc d =>
      let nr : Int := (row : Int) + d.1
      let nc : Int := (col : Int) + d.2
      if 0 ≤ nr ∧ nr < (height : Int) ∧ 0 ≤ nc ∧ nc < (width : Int) then
        let nidx := nr.toNat * width + nc.toNat
        let cell := grid.getD nidx defaultCell
        { fires := acc.fires + (if cell.burning.burning then 1 else 0),
          trees := acc.trees + (if cell.tree then 1 else 0) }
      else acc)
    { trees := 0, fires := 0 }

/-- One tick of the rule kernel over a whole grid snapshot: every cell is
rewritten by `apply_simulation_rules` from the *input* grid only (the
double-buffered dispatch of `src/sim/gpucompute.rs`). `rand` supplies the
three per-cell samples, keyed by cell index. -/
def step_grid (grid : List CellState) (parameters : SimulationParameters)
    (width height : ℕ) (rand : ℕ → ℚ × ℚ × ℚ) : List CellState :=
  (List.range grid.length).map fun idx =>
    apply_simulation_rules (grid.getD idx defaultCell) parameters
      (get_neighboring_cell_info grid idx width height)
      (rand idx).1 (rand idx).2.1 (rand idx).2.2

/-! ## Stepping engine: double-buffered parity (`src/sim/gpucompute.rs`, `src/gpu.rs`) -/

/-- The two cell buffers of the stepping engine (`buf_1`, `buf_2`). -/
inductive Buf where
  | buf1 : Buf
  | buf2 : Buf
deriving DecidableEq

/-- Parity-relevant state of `ComputeContext` (`src/sim/gpucompute.rs`) and
`ComputeContextIntegrated` (`src/gpu.rs`): the `flipped_bufs` flag, the step
counter, and (for the embedding) the buffer the most recent dispatch wrote
its output to (`none` before the first dispatch; the initial frame is
uploaded into `buf_1`). -/
structure EngineState where
  flipped_bufs : Bool
  steps : ℕ
  lastWrite : Option Buf
deriving DecidableEq

/-- A fresh engine: `flipped_bufs := false`, `steps := 0`
(`create_internal` in `src/sim/gpucompute.rs`, `create_compute_context`
in `src/gpu.rs`). -/
def freshEngine : EngineState :=
  { flipped_bufs := false, steps := 0, lastWrite := none }

/-- The buffer a dispatch writes to, given the `flipped_bufs` value at
dispatch time: with `flipped_bufs = false` the bind group `cells_bg`
(buf1 -> buf2) is used, so the output is `buf_2`; with `flipped_bufs = true`
the bind group `cells_bg_rev` (buf2 -> buf1) is used, so the output is
`buf_1`. This matches the staging-copy source in `compute_step`
(`src/sim/gpucompute.rs` lines 252-259). -/
def dispatch_target (flipped : Bool) : Buf :=
  if flipped then Buf.buf1 else Buf.buf2

/-- `ComputeContext::compute_step` (`src/sim/gpucompute.rs` lines 217-265)
as it affects parity: dispatch oriented by the current `flipped_bufs`, then
`flipped_bufs = !flipped_bufs` and `steps += 1`. -/
def compute_step (s : EngineState) : EngineState :=
  { flipped_bufs := !s.flipped_bufs,
    steps := s.steps + 1,
    lastWrite := some (dispatch_target s.flipped_bufs) }

/-- The engine after `n` calls to `compute_step` on a fresh engine. -/
def engine_after (n : ℕ) : EngineState :=
  compute_step^[n] freshEngine

/-- `ComputeContext::current_output_buffer` (`src/sim/gpucompute.rs`
lines 175-181): `if flipped_bufs { buf_1 } else { buf_2 }`. -/
def current_output_buffer (s : EngineState) : Buf :=
  if s.flipped_bufs then Buf.buf1 else Buf.buf2

/-- The cell buffer the renderer binds for the draw in
`GpuSimRenderer::step_and_render` (`src/gpu.rs` lines 770-782):
`if flipped_bufs { cells_bind_group_2 } else { cells_bind_group_1 }`. -/
def render_bind_buffer (s : EngineState) : Buf :=
  if s.flipped_bufs then Buf.buf2 else Buf.buf1

/-! ## Simulation loops (`sim_thread` in `src/sim/mod.rs`,
`step_and_render` in `src/gpu.rs`) -/

/-- The step-count computation of `GpuSimRenderer::step_and_render`
(`src/gpu.rs` lines 629-647): with a positive tick rate, elapsed seconds
are accumulated, whole ticks are extracted (`floor`), the fractional
remainder is carried over, and the returned count is capped at 100; with
`tick_rate = 0` no steps run and the reservoir is untouched. Returns
(steps to run, new accumulated time). -/
def steps_to_run (tick_rate : ℕ) (accumulated_time elapsed_s : ℚ) : ℕ × ℚ :=
  if 0 < tick_rate then
    let acc := accumulated_time + elapsed_s
    let seconds_per_tick : ℚ := 1 / (tick_rate : ℚ)
    let steps := (⌊acc / seconds_per_tick⌋).toNat
    (min steps 100, acc - (steps : ℚ) * seconds_per_tick)
  else
    (0, accumulated_time)

/-- State of the redraw-driven loop of `GpuSimRenderer` (`src/gpu.rs`):
the engine parity state plus the fractional-tick reservoir. -/
structure RedrawState where
  engine : EngineState
  accumulated_time : ℚ
deriving DecidableEq

/-- One call of `GpuSimRenderer::step_and_render` (`src/gpu.rs`
lines 615-789), redraw-driven embedding: compute the due step count,
dispatch that many compute steps, then run the render pass. Returns
(new state, number of compute dispatches, whether a frame was drawn);
the render pass always runs. -/
def step_and_render (s : RedrawState) (tick_rate : ℕ) (elapsed_s : ℚ) :
    RedrawState × ℕ × Bool :=
  let p := steps_to_run tick_rate s.accumulated_time elapsed_s
  ({ engine := compute_step^[p.1] s.engine, accumulated_time := p.2 }, p.1, true)

/-- One iteration of the `while !stop` loop body of `sim_thread`
(`src/sim/mod.rs` lines 307-330): `compute_step` is invoked
unconditionally; only afterwards is `tick_rate` inspected, and when it is 0
the iteration blocks on a parameter change instead of sleeping. Returns
(engine after the iteration, whether the iteration then waits on a
parameter change). -/
def sim_thread_iteration (engine : EngineState) (tick_rate : ℕ) :
    EngineState × Bool :=
  (compute_step engine, tick_rate == 0)

/-! ## Concrete parameter records used by the claim theorems -/

/-- Zero rates except a tree-death chance of 1/2 and death underbrush 1/4. -/
def deathParams : SimulationParameters :=
  { zeroParams with tree_death_rate := 1 / 2, tree_death_underbrush := 1 / 4 }

/-- Zero rates except spread rate 1, underbrush flammability 1, and an
underbrush fire duration of 1 tick. -/
def spreadParams : SimulationParameters :=
  { zeroParams with
    underbrush_fire_duration := 1
    fire_spread_rate := 1
    underbrush_flammability := 1 }

/-- Zero rates except a generation amount of 1. -/
def genParams : SimulationParameters :=
  { zeroParams with tree_underbrush_generation := 1 }

/-- Zero rates except growth chance 1 and generation amount 1/2. -/
def regrowParams : SimulationParameters :=
  { zeroParams with tree_growth_rate := 1, tree_underbrush_generation := 1 / 2 }

/-- Zero rates except spread rate 1, underbrush flammability 1, and
growth chance 1. -/
def ignGrowParams : SimulationParameters :=
  { zeroParams with
    fire_spread_rate := 1
    underbrush_flammability := 1
    tree_growth_rate := 1 }

/-! ## Helper lemmas on the kernel -/

/-- The burn state produced by one kernel tick, unfolded. -/
theorem apply_burning_eq (state0 : CellState) (parameters : SimulationParameters)
    (info : NeighboringCellInfo) (r1 r2 r3 : ℚ) :
    (apply_simulation_rules state0 parameters info r1 r2 r3).burning =
      if (handle_burn state0).burning.burning
          || !((handle_burn state0).burning.burning
            || decide (r1 < spread_probability (handle_burn state0) parameters info)) then
        (handle_burn state0).burning
      else BurnState.Burning (calculate_burn_duration (handle_burn state0) parameters) :=
  rfl

/-- The tree flag produced by one kernel tick, unfolded. -/
theorem apply_tree_eq (state0 : CellState) (parameters : SimulationParameters)
    (info : NeighboringCellInfo) (r1 r2 r3 : ℚ) :
    (apply_simulation_rules state0 parameters info r1 r2 r3).tree =
      ((handle_burn state0).tree
        || (!((handle_burn state0).burning.burning
            || decide (r1 < spread_probability (handle_burn state0) parameters info))
          && decide (r3 < growth_probability (handle_burn state0) parameters))) :=
  rfl

/-- The underbrush produced by one kernel tick, unfolded. -/
theorem apply_underbrush_eq (state0 : CellState) (parameters : SimulationParameters)
    (info : NeighboringCellInfo) (r1 r2 r3 : ℚ) :
    (apply_simulation_rules state0 parameters info r1 r2 r3).underbrush =
      (handle_burn state0).underbrush
        + parameters.tree_underbrush_generation
          * ((((if (apply_simulation_rules state0 parameters info r1 r2 r3).tree then 1 else 0)
              + info.trees : ℕ)) : ℚ)
        + parameters.tree_death_underbrush
          * (if (handle_burn state0).tree && decide (r2 < parameters.tree_death_rate)
              then 1 else 0) :=
  rfl

/-- A cell that is not burning is untouched by the burn-timer step. -/
theorem handle_burn_of_not_burning (c : CellState)
    (h : c.burning = BurnState.NotBurning) : handle_burn c = c := by
  obtain ⟨b, u, t⟩ := c
  cases b with
  | NotBurning => rfl
  | Burning tr => simp at h

/-- A burning cell whose countdown exceeds 2 stays burning with the
countdown decremented. -/
theorem handle_burn_of_two_lt (c : CellState) (tr : ℕ)
    (h : c.burning = BurnState.Burning tr) (htr : 2 < tr) :
    handle_burn c = { c with burning := BurnState.Burning (tr - 1) } := by
  obtain ⟨b, u, t⟩ := c
  cases b with
  | NotBurning => simp at h
  | Burning tr0 =>
    obtain rfl : tr0 = tr := by simpa using h
    simp only [handle_burn]
    rw [show (if tr0 > 0 then tr0 - 1 else tr0) = tr0 - 1 from if_pos (by omega),
      if_pos (show tr0 - 1 > 1 by omega)]

/-- A burning cell whose countdown is at most 2 burns out: it becomes
idle, loses its tree, and its underbrush is reset to 0. -/
theorem handle_burn_of_le_two (c : CellState) (tr : ℕ)
    (h : c.burning = BurnState.Burning tr) (htr : tr ≤ 2) :
    handle_burn c = defaultCell := by
  obtain ⟨b, u, t⟩ := c
  cases b with
  | NotBurning => simp at h
  | Burning tr0 =>
    obtain rfl : tr0 = tr := by simpa using h
    simp only [handle_burn]
    by_cases h0 : tr0 > 0
    · rw [show (if tr0 > 0 then tr0 - 1 else tr0) = tr0 - 1 from if_pos h0,
        if_neg (show ¬tr0 - 1 > 1 by omega)]
      rfl
    · rw [show (if tr0 > 0 then tr0 - 1 else tr0) = tr0 from if_neg h0,
        if_neg (show ¬tr0 > 1 by omega)]
      rfl

/-- The just-burned-out (barren) cell has zero flammability, so its
spread-ignition probability is zero. -/
theorem spread_probability_defaultCell (p : SimulationParameters)
    (info : NeighboringCellInfo) : spread_probability defaultCell p info = 0 := by
  simp [spread_probability, total_flammability, defaultCell]

/-! ## Claim theorems -/

/-- C1: the claim says a successful tree-death sample removes the tree
(`tree == false` afterwards). Evaluating the kernel at a not-burning tree
cell whose death sample succeeds (sample 0 against `tree_death_rate = 1/2`)
shows the opposite: the kernel credits the death underbrush (`1/4`) yet
still outputs `tree = true`, because the new tree flag is computed as
`state.tree || ...`, which never consults `tree_dies`. -/
theorem c1_death_sample_leaves_tree :
    ((0 : ℚ) < deathParams.tree_death_rate) ∧
    (apply_simulation_rules
        { burning := BurnState.NotBurning, underbrush := 0, tree := true }
        deathParams { trees := 0, fires := 0 } 1 0 1).tree = true ∧
    (apply_simulation_rules
        { burning := BurnState.NotBurning, underbrush := 0, tree := true }
        deathParams { trees := 0, fires := 0 } 1 0 1).underbrush = 1 / 4 := by
  refine ⟨by norm_num [deathParams, zeroParams], ?_, ?_⟩ <;>
    norm_num [apply_simulation_rules, handle_burn, spread_probability, total_flammability,
      growth_probability, BurnState.burning, deathParams, zeroParams]

/-- C2 counterexample: the claim says a cell entering a tick burning with
`ticks_remaining == 2` is still burning (with `ticks_remaining == 1`) at
the end of that tick. The kernel instead burns it out in that tick:
`handle_burn` decrements 2 to 1 and, because the decremented value is not
`> 1`, transitions the cell to idle. -/
theorem c2_counterexample :
    (apply_simulation_rules
        { burning := BurnState.Burning 2, underbrush := 1, tree := true }
        zeroParams { trees := 0, fires := 0 } 1 1 1).burning
      = BurnState.NotBurning ∧
    (apply_simulation_rules
        { burning := BurnState.Burning 2, underbrush := 1, tree := true }
        zeroParams { trees := 0, fires := 0 } 1 1 1).burning
      ≠ BurnState.Burning 1 := by
  have h : (apply_simulation_rules
      { burning := BurnState.Burning 2, underbrush := 1, tree := true }
      zeroParams { trees := 0, fires := 0 } 1 1 1).burning = BurnState.NotBurning := by
    norm_num [apply_simulation_rules, handle_burn, spread_probability, total_flammability,
      growth_probability, BurnState.burning, zeroParams, defaultCell]
  exact ⟨h, by rw [h]; exact fun hc => BurnState.noConfusion hc⟩

/-- C2 amended: in one kernel tick, a burning cell with
`ticks_remaining > 2` stays burning with the countdown decremented
(strictly decreasing), and a burning cell with `ticks_remaining ≤ 2`
leaves burning in that same tick (it cannot re-ignite in the same tick
because the burned-out cell has zero flammability, given a nonnegative
spread sample). -/
theorem c2_burn_countdown (c : CellState) (p : SimulationParameters)
    (info : NeighboringCellInfo) (r1 r2 r3 : ℚ) (tr : ℕ)
    (h : c.burning = BurnState.Burning tr) (hr1 : 0 ≤ r1) :
    (2 < tr → (apply_simulation_rules c p info r1 r2 r3).burning
        = BurnState.Burning (tr - 1) ∧ tr - 1 < tr) ∧
    (tr ≤ 2 → (apply_simulation_rules c p info r1 r2 r3).burning
        = BurnState.NotBurning) := by
  constructor
  · intro htr
    refine ⟨?_, by omega⟩
    rw [apply_burning_eq, handle_burn_of_two_lt c tr h htr]
    simp [BurnState.burning]
  · intro htr
    rw [apply_burning_eq, handle_burn_of_le_two c tr h htr, spread_probability_defaultCell]
    simp [BurnState.burning, defaultCell, not_lt.mpr hr1]

/-- C2 amended, witness: the countdown behaviour evaluated at a cell
burning with `ticks_remaining = 3` and nonnegative samples. -/
theorem c2_burn_countdown_witness :
    ((⟨BurnState.Burning 3, 0, false⟩ : CellState).burning = BurnState.Burning 3
      ∧ (0 : ℚ) ≤ 0) ∧
    ((2 < 3 → (apply_simulation_rules ⟨BurnState.Burning 3, 0, false⟩ zeroParams
        { trees := 0, fires := 0 } 0 0 0).burning = BurnState.Burning (3 - 1) ∧ 3 - 1 < 3) ∧
     (3 ≤ 2 → (apply_simulation_rules ⟨BurnState.Burning 3, 0, false⟩ zeroParams
        { trees := 0, fires := 0 } 0 0 0).burning = BurnState.NotBurning)) :=
  ⟨⟨rfl, le_refl 0⟩,
    c2_burn_countdown ⟨BurnState.Burning 3, 0, false⟩ zeroParams
      { trees := 0, fires := 0 } 0 0 0 3 rfl (le_refl 0)⟩

/-- C3: a newly ignited cell is claimed to receive
`ticks_remaining = round(underbrush * underbrush_fire_duration) +
(tree ? tree_fire_duration : 0)` clamped to at least 1. The formula is
implemented verbatim but with no clamp: a treeless cell with
`underbrush = 1/10` and `underbrush_fire_duration = 1` has
`calculate_burn_duration = 0`, and with one burning neighbor,
`fire_spread_rate = 1`, `underbrush_flammability = 1` and spread sample 0
(below the spread probability `1/80`) the kernel ignites it with
`ticks_remaining = 0`, violating `ticks_remaining > 0` for burning cells. -/
theorem c3_zero_duration_ignition :
    calculate_burn_duration
        { burning := BurnState.NotBurning, underbrush := 1 / 10, tree := false }
        spreadParams = 0 ∧
    (apply_simulation_rules
        { burning := BurnState.NotBurning, underbrush := 1 / 10, tree := false }
        spreadParams { trees := 0, fires := 1 } 0 1 1).burning = BurnState.Burning 0 := by
  constructor <;>
    norm_num [apply_simulation_rules, handle_burn, spread_probability, total_flammability,
      growth_probability, calculate_burn_duration, BurnState.burning, spreadParams,
      zeroParams, round_eq]

/-- C4: after `n` steps the parity flag equals `n mod 2` and the renderer
binds the buffer the `n`-th dispatch wrote — but `current_output_buffer()`
does not return that buffer. Evaluated at `n = 1` from a fresh engine: the
dispatch ran with `flipped_bufs = false`, so it wrote `buf_2` (which the
renderer correctly binds), the flag is now `true` (`1 mod 2`), yet
`current_output_buffer()` returns `buf_1`, contradicting its own doc
comment ("the one that was last written to ... used for rendering"). -/
theorem c4_current_output_buffer_wrong :
    (engine_after 1).flipped_bufs = true ∧
    (engine_after 1).steps = 1 ∧
    (engine_after 1).lastWrite = some Buf.buf2 ∧
    render_bind_buffer (engine_after 1) = Buf.buf2 ∧
    current_output_buffer (engine_after 1) = Buf.buf1 :=
  ⟨rfl, rfl, rfl, rfl, rfl⟩

/-- C5 counterexample: the claim says the underbrush-accumulation step
clamps its result to at most 1. There is no clamp in the kernel: a tree
cell with `underbrush = 1` and `tree_underbrush_generation = 1` ends the
tick with `underbrush = 2 > 1`. -/
theorem c5_counterexample :
    (apply_simulation_rules
        { burning := BurnState.NotBurning, underbrush := 1, tree := true }
        genParams { trees := 0, fires := 0 } 1 1 1).underbrush = 2 ∧
    ¬((apply_simulation_rules
        { burning := BurnState.NotBurning, underbrush := 1, tree := true }
        genParams { trees := 0, fires := 0 } 1 1 1).underbrush ≤ 1) := by
  have h : (apply_simulation_rules
      { burning := BurnState.NotBurning, underbrush := 1, tree := true }
      genParams { trees := 0, fires := 0 } 1 1 1).underbrush = 2 := by
    norm_num [apply_simulation_rules, handle_burn, spread_probability, total_flammability,
      growth_probability, BurnState.burning, genParams, zeroParams]
  exact ⟨h, by rw [h]; norm_num⟩

/-- C5 amended: the resulting underbrush is never negative (given a
nonnegative incoming underbrush and nonnegative generation/death-underbrush
parameters), but the accumulation step applies no upper clamp, so the
result can exceed 1. -/
theorem c5_underbrush_nonneg (c : CellState) (p : SimulationParameters)
    (info : NeighboringCellInfo) (r1 r2 r3 : ℚ)
    (hu : 0 ≤ c.underbrush) (hg : 0 ≤ p.tree_underbrush_generation)
    (hd : 0 ≤ p.tree_death_underbrush) :
    0 ≤ (apply_simulation_rules c p info r1 r2 r3).underbrush := by
  have hb : 0 ≤ (handle_burn c).underbrush := by
    obtain ⟨b, u, t⟩ := c
    cases b with
    | NotBurning => exact hu
    | Burning tr =>
      simp only [handle_burn]
      split <;> split <;> simp [hu]
  rw [apply_underbrush_eq]
  refine add_nonneg (add_nonneg hb (mul_nonneg hg (Nat.cast_nonneg _))) (mul_nonneg hd ?_)
  split <;> norm_num

/-- C5 amended, witness: nonnegativity evaluated at the all-idle cell with
all-zero parameters and zero samples. -/
theorem c5_underbrush_nonneg_witness :
    ((0 : ℚ) ≤ defaultCell.underbrush
      ∧ (0 : ℚ) ≤ zeroParams.tree_underbrush_generation
      ∧ (0 : ℚ) ≤ zeroParams.tree_death_underbrush) ∧
    0 ≤ (apply_simulation_rules defaultCell zeroParams
        { trees := 0, fires := 0 } 0 0 0).underbrush :=
  ⟨⟨le_refl 0, le_refl 0, le_refl 0⟩,
    c5_underbrush_nonneg defaultCell zeroParams { trees := 0, fires := 0 } 0 0 0
      (le_refl 0) (le_refl 0) (le_refl 0)⟩

/-- C6: a cell that is newly ignited in a tick (not burning after the
burn-timer step, burning at the end of the tick — in this kernel the only
such ignition path is fire spread) cannot also grow a tree in that tick:
its tree flag is exactly what the burn-timer step produced. -/
theorem c6_ignition_blocks_growth (c : CellState) (p : SimulationParameters)
    (info : NeighboringCellInfo) (r1 r2 r3 : ℚ)
    (hidle : (handle_burn c).burning.burning = false)
    (hignite : (apply_simulation_rules c p info r1 r2 r3).burning.burning = true) :
    (apply_simulation_rules c p info r1 r2 r3).tree = (handle_burn c).tree := by
  rw [apply_tree_eq]
  cases hd : decide (r1 < spread_probability (handle_burn c) p info) with
  | false =>
    rw [apply_burning_eq, hidle, hd] at hignite
    simp [hidle] at hignite
  | true =>
    simp [hidle, hd]

/-- C6 witness: a treeless cell with underbrush 1 next to eight fires,
with spread rate and flammability 1, ignites (sample 0 against
probability 1); although the growth sample 0 would succeed against growth
chance 1, the newly ignited cell does not grow a tree. -/
theorem c6_ignition_blocks_growth_witness :
    ((handle_burn { burning := BurnState.NotBurning, underbrush := 1, tree := false
      }).burning.burning = false
      ∧ (apply_simulation_rules
          { burning := BurnState.NotBurning, underbrush := 1, tree := false }
          ignGrowParams { trees := 0, fires := 8 } 0 1 0).burning.burning = true) ∧
    (apply_simulation_rules
        { burning := BurnState.NotBurning, underbrush := 1, tree := false }
        ignGrowParams { trees := 0, fires := 8 } 0 1 0).tree
      = (handle_burn { burning := BurnState.NotBurning, underbrush := 1, tree := false }).tree := by
  have h1 : (handle_burn { burning := BurnState.NotBurning, underbrush := 1, tree := false
      }).burning.burning = false := rfl
  have h2 : (apply_simulation_rules
      { burning := BurnState.NotBurning, underbrush := 1, tree := false }
      ignGrowParams { trees := 0, fires := 8 } 0 1 0).burning.burning = true := by
    norm_num [apply_simulation_rules, handle_burn, spread_probability, total_flammability,
      growth_probability, BurnState.burning, ignGrowParams, zeroParams]
  exact ⟨⟨h1, h2⟩, c6_ignition_blocks_growth _ _ _ _ _ _ h1 h2⟩

/-- C7 counterexample: the claim says a cell that transitions
Burning→Idle in tick t is barren (`tree == false`, `underbrush == 0`) at
the start of tick t+1. With growth chance 1 and generation 1/2, a cell
burning out in tick t regrows a tree and accumulates underbrush 1/2 in the
very same tick, so it starts tick t+1 idle but not barren. -/
theorem c7_counterexample :
    (apply_simulation_rules
        { burning := BurnState.Burning 1, underbrush := 1, tree := true }
        regrowParams { trees := 0, fires := 0 } 1 1 0).burning = BurnState.NotBurning ∧
    (apply_simulation_rules
        { burning := BurnState.Burning 1, underbrush := 1, tree := true }
        regrowParams { trees := 0, fires := 0 } 1 1 0).tree = true ∧
    (apply_simulation_rules
        { burning := BurnState.Burning 1, underbrush := 1, tree := true }
        regrowParams { trees := 0, fires := 0 } 1 1 0).underbrush = 1 / 2 := by
  refine ⟨?_, ?_, ?_⟩ <;>
    norm_num [apply_simulation_rules, handle_burn, spread_probability, total_flammability,
      growth_probability, BurnState.burning, regrowParams, zeroParams, defaultCell]

/-- C7 amended: a cell that burns out in a tick (entering it burning with
`ticks_remaining ≤ 2`) ends the tick idle and cannot re-ignite (given a
nonnegative spread sample), and the burn-timer step leaves it barren; but
the same tick's later steps may regrow a tree (exactly when the growth
sample is below `tree_growth_rate`) and accumulate underbrush
(`tree_underbrush_generation` per tree, counting a regrown tree and
neighboring trees), so it starts the next tick barren only when neither
occurs. -/
theorem c7_burnout_characterization (c : CellState) (p : SimulationParameters)
    (info : NeighboringCellInfo) (r1 r2 r3 : ℚ) (tr : ℕ)
    (h : c.burning = BurnState.Burning tr) (htr : tr ≤ 2) (hr1 : 0 ≤ r1) :
    (apply_simulation_rules c p info r1 r2 r3).burning = BurnState.NotBurning ∧
    ((apply_simulation_rules c p info r1 r2 r3).tree = true ↔ r3 < p.tree_growth_rate) ∧
    (apply_simulation_rules c p info r1 r2 r3).underbrush
      = p.tree_underbrush_generation
        * ((((if (apply_simulation_rules c p info r1 r2 r3).tree then 1 else 0)
            + info.trees : ℕ)) : ℚ) := by
  have hb := handle_burn_of_le_two c tr h htr
  refine ⟨?_, ?_, ?_⟩
  · rw [apply_burning_eq, hb, spread_probability_defaultCell]
    simp [BurnState.burning, defaultCell, not_lt.mpr hr1]
  · rw [apply_tree_eq, hb, spread_probability_defaultCell]
    simp [BurnState.burning, defaultCell, not_lt.mpr hr1, growth_probability]
  · rw [apply_underbrush_eq, hb]
    simp [BurnState.burning, defaultCell]

/-- C7 amended, witness: a cell burning with `ticks_remaining = 2` and
all-zero rates ends the tick idle, treeless (growth chance 0), and with
underbrush 0. -/
theorem c7_burnout_characterization_witness :
    ((⟨BurnState.Burning 2, 1, true⟩ : CellState).burning = BurnState.Burning 2
      ∧ 2 ≤ 2 ∧ (0 : ℚ) ≤ 0) ∧
    ((apply_simulation_rules ⟨BurnState.Burning 2, 1, true⟩ zeroParams
        { trees := 0, fires := 0 } 0 0 0).burning = BurnState.NotBurning ∧
     ((apply_simulation_rules ⟨BurnState.Burning 2, 1, true⟩ zeroParams
        { trees := 0, fires := 0 } 0 0 0).tree = true ↔ (0 : ℚ) < zeroParams.tree_growth_rate) ∧
     (apply_simulation_rules ⟨BurnState.Burning 2, 1, true⟩ zeroParams
        { trees := 0, fires := 0 } 0 0 0).underbrush
        = zeroParams.tree_underbrush_generation
          * ((((if (apply_simulation_rules ⟨BurnState.Burning 2, 1, true⟩ zeroParams
              { trees := 0, fires := 0 } 0 0 0).tree then 1 else 0) + 0 : ℕ)) : ℚ)) :=
  ⟨⟨rfl, le_refl 2, le_refl 0⟩,
    c7_burnout_characterization ⟨BurnState.Burning 2, 1, true⟩ zeroParams
      { trees := 0, fires := 0 } 0 0 0 2 rfl (le_refl 2) (le_refl 0)⟩

/-- C10: a cell that is still burning after the burn-timer step keeps that
burn state through the rest of the tick, and the whole cell result is
independent of the fire-spread sample: the spread step never re-rolls,
extends, or otherwise modifies the burn state of an already-burning cell,
and the other fields evolve as if no ignition were attempted. -/
theorem c10_spread_ignores_burning_cells (c : CellState) (p : SimulationParameters)
    (info : NeighboringCellInfo) (r1 r1' r2 r3 : ℚ)
    (hb : (handle_burn c).burning.burning = true) :
    (apply_simulation_rules c p info r1 r2 r3).burning = (handle_burn c).burning ∧
    apply_simulation_rules c p info r1 r2 r3 = apply_simulation_rules c p info r1' r2 r3 := by
  constructor
  · rw [apply_burning_eq, hb]
    simp
  · simp [apply_simulation_rules, hb]

/-- C10 witness: an already-burning cell (countdown 5, so still burning
after the timer step) evaluated with two different spread samples. -/
theorem c10_spread_ignores_burning_cells_witness :
    ((handle_burn (⟨BurnState.Burning 5, 0, true⟩ : CellState)).burning.burning = true) ∧
    ((apply_simulation_rules ⟨BurnState.Burning 5, 0, true⟩ zeroParams
        { trees := 0, fires := 0 } 0 0 0).burning
      = (handle_burn (⟨BurnState.Burning 5, 0, true⟩ : CellState)).burning ∧
     apply_simulation_rules ⟨BurnState.Burning 5, 0, true⟩ zeroParams
        { trees := 0, fires := 0 } 0 0 0
      = apply_simulation_rules ⟨BurnState.Burning 5, 0, true⟩ zeroParams
        { trees := 0, fires := 0 } 1 0 0) :=
  ⟨rfl, c10_spread_ignores_burning_cells ⟨BurnState.Burning 5, 0, true⟩ zeroParams
    { trees := 0, fires := 0 } 0 1 0 0 rfl⟩

/-- Shared helper for C8: with all growth, death, spread, and underbrush
rates zero and nonnegative samples, one kernel tick is the identity on a
cell that is not burning. -/
theorem apply_zero_rates_idle (c : CellState) (p : SimulationParameters)
    (info : NeighboringCellInfo) (r1 r2 r3 : ℚ)
    (hg : p.tree_growth_rate = 0) (hd : p.tree_death_rate = 0)
    (hs : p.fire_spread_rate = 0) (hgen : p.tree_underbrush_generation = 0)
    (hdu : p.tree_death_underbrush = 0)
    (hc : c.burning = BurnState.NotBurning)
    (h1 : 0 ≤ r1) (h2 : 0 ≤ r2) (h3 : 0 ≤ r3) :
    apply_simulation_rules c p info r1 r2 r3 = c := by
  have hb := handle_burn_of_not_burning c hc
  have hsp : spread_probability (handle_burn c) p info = 0 := by
    simp [spread_probability, hs]
  have hgp : growth_probability (handle_burn c) p = 0 := by
    simp [growth_probability, hg]
  have hburn : (apply_simulation_rules c p info r1 r2 r3).burning = c.burning := by
    rw [apply_burning_eq, hsp, hb, hc]
    simp [BurnState.burning, not_lt.mpr h1]
  have htree : (apply_simulation_rules c p info r1 r2 r3).tree = c.tree := by
    rw [apply_tree_eq, hgp, hb]
    simp [not_lt.mpr h3]
  have hub : (apply_simulation_rules c p info r1 r2 r3).underbrush = c.underbrush := by
    rw [apply_underbrush_eq, hb, hgen, hdu]
    ring
  have hx : apply_simulation_rules c p info r1 r2 r3
      = ⟨(apply_simulation_rules c p info r1 r2 r3).burning,
         (apply_simulation_rules c p info r1 r2 r3).underbrush,
         (apply_simulation_rules c p info r1 r2 r3).tree⟩ := rfl
  rw [hx, hburn, htree, hub]

/-- C8 counterexample: the claim says that with all rates zero, one tick
of the rule kernel is the identity on *every* grid state. A 1-by-1 grid
holding a burning cell with countdown 5 is not invariant: the burn timer
still decrements it to 4. -/
theorem c8_counterexample :
    step_grid [⟨BurnState.Burning 5, 0, false⟩] zeroParams 1 1 (fun _ => (1, 1, 1))
      = [⟨BurnState.Burning 4, 0, false⟩] ∧
    step_grid [⟨BurnState.Burning 5, 0, false⟩] zeroParams 1 1 (fun _ => (1, 1, 1))
      ≠ [⟨BurnState.Burning 5, 0, false⟩] := by
  have hn : get_neighboring_cell_info [⟨BurnState.Burning 5, 0, false⟩] 0 1 1
      = { trees := 0, fires := 0 } := by
    simp [get_neighboring_cell_info, neighborOffsets]
  have h : step_grid [⟨BurnState.Burning 5, 0, false⟩] zeroParams 1 1 (fun _ => (1, 1, 1))
      = [⟨BurnState.Burning 4, 0, false⟩] := by
    simp only [step_grid, List.length_cons, List.length_nil, List.range_succ, List.range_zero,
      List.nil_append, List.map_cons, List.map_nil, List.getD, hn]
    norm_num [apply_simulation_rules, handle_burn, spread_probability, total_flammability,
      growth_probability, BurnState.burning, zeroParams, defaultCell]
  refine ⟨h, ?_⟩
  rw [h]
  intro hc
  have := List.head_eq_of_cons_eq hc
  simp at this
/-- C8 amended: with all growth, death, lightning, spread, and underbrush
rates zero, one tick of the rule kernel is the identity on every grid with
no burning cell (given nonnegative per-cell samples); grids containing a
burning cell still evolve, as the burn timer runs unconditionally. -/
theorem c8_zero_rates_invariant (grid : List CellState) (p : SimulationParameters)
    (width height : ℕ) (rand : ℕ → ℚ × ℚ × ℚ)
    (hg : p.tree_growth_rate = 0) (hd : p.tree_death_rate = 0)
    (hl : p.lightning_frequency = 0)
    (hs : p.fire_spread_rate = 0) (hgen : p.tree_underbrush_generation = 0)
    (hdu : p.tree_death_underbrush = 0)
    (hidle : ∀ c ∈ grid, c.burning = BurnState.NotBurning)
    (hrand : ∀ i, 0 ≤ (rand i).1 ∧ 0 ≤ (rand i).2.1 ∧ 0 ≤ (rand i).2.2) :
    step_grid grid p width height rand = grid := by
  unfold step_grid
  apply List.ext_getElem (by simp)
  intro i h1 h2
  simp only [List.getElem_map, List.getElem_range]
  rw [List.getD_eq_getElem?_getD, List.getElem?_eq_getElem h2, Option.getD_some]
  exact apply_zero_rates_idle _ p _ _ _ _ hg hd hs hgen hdu
    (hidle _ (List.getElem_mem h2)) (hrand i).1 (hrand i).2.1 (hrand i).2.2

/-- C8 amended, witness: a 1-by-1 grid holding the all-idle cell is
invariant under one tick with all-zero parameters. -/
theorem c8_zero_rates_invariant_witness :
    (∀ c ∈ [defaultCell], c.burning = BurnState.NotBurning) ∧
    step_grid [defaultCell] zeroParams 1 1 (fun _ => (0, 0, 0)) = [defaultCell] :=
  ⟨by simp [defaultCell],
    c8_zero_rates_invariant [defaultCell] zeroParams 1 1 (fun _ => (0, 0, 0))
      rfl rfl rfl rfl rfl rfl (by simp [defaultCell])
      (fun _ => ⟨le_refl 0, le_refl 0, le_refl 0⟩)⟩

/-- C9 counterexample: the claim says that with `tick_rate = 0` the
simulation loop never invokes the step operation in either embedding. The
producer-thread loop (`sim_thread`) invokes `compute_step` before it
inspects `tick_rate`: one iteration with `tick_rate = 0` still advances
the step counter from 0 to 1 (and only then blocks on a parameter
change). -/
theorem c9_counterexample :
    freshEngine.steps = 0 ∧
    (sim_thread_iteration freshEngine 0).1.steps = 1 ∧
    (sim_thread_iteration freshEngine 0).2 = true :=
  ⟨rfl, rfl, rfl⟩

/-- C9 amended: with `tick_rate = 0`, the redraw-driven embedding
(`step_and_render`) dispatches zero compute steps — leaving the engine
untouched, whatever wall-clock time elapsed — while still drawing a frame;
the producer-thread embedding (`sim_thread`), however, invokes one
`compute_step` per loop iteration even then, and only afterwards blocks
waiting for a parameter change. -/
theorem c9_tick_rate_zero (tick_rate : ℕ) (h : tick_rate = 0)
    (s : RedrawState) (elapsed_s : ℚ) (e : EngineState) :
    (step_and_render s tick_rate elapsed_s).2.1 = 0 ∧
    (step_and_render s tick_rate elapsed_s).1.engine = s.engine ∧
    (step_and_render s tick_rate elapsed_s).2.2 = true ∧
    (sim_thread_iteration e tick_rate).1.steps = e.steps + 1 ∧
    (sim_thread_iteration e tick_rate).2 = true := by
  subst h
  refine ⟨?_, ?_, rfl, rfl, rfl⟩ <;> simp [step_and_render, steps_to_run]

/-- C9 amended, witness: evaluated at a fresh loop state after a very long
elapsed interval. -/
theorem c9_tick_rate_zero_witness :
    (0 = 0) ∧
    ((step_and_render ⟨freshEngine, 0⟩ 0 1000000).2.1 = 0 ∧
     (step_and_render ⟨freshEngine, 0⟩ 0 1000000).1.engine = freshEngine ∧
     (step_and_render ⟨freshEngine, 0⟩ 0 1000000).2.2 = true ∧
     (sim_thread_iteration freshEngine 0).1.steps = freshEngine.steps + 1 ∧
     (sim_thread_iteration freshEngine 0).2 = true) :=
  ⟨rfl, c9_tick_rate_zero 0 rfl ⟨freshEngine, 0⟩ 1000000 freshEngine⟩
